import Mathlib

/-!
Verification development for the pVAC-Seq server controller utilities
(`pvacseq/server/controllers/utils.py`): the keyed file store (`dataObj`),
the description catalog, the dropbox/process manifest reconciliation run at
startup, and the create/delete/move filesystem-event handlers.

Python dicts are modelled as association lists (insertion order preserved,
unique keys in every state the operations produce); Python strings as `String`;
`str`/`int` dict keys as the sum type `PyKey`; code that can raise is modelled
with `Except String`.
-/

/-- Lookup in an association list: the model of Python `d[k]` returning
`none` where Python would raise `KeyError`. -/
def dlookup {κ β : Type} [DecidableEq κ] : List (κ × β) → κ → Option β
  | [], _ => none
  | kv :: rest, k => if kv.1 = k then some kv.2 else dlookup rest k

/-- Key membership: the model of Python `k in d`. -/
def memKeys {κ β : Type} [DecidableEq κ] (l : List (κ × β)) (k : κ) : Bool :=
  (dlookup l k).isSome

/-- The model of Python `d[k] = v`: replace in place when the key exists
(dict keys keep their insertion position), otherwise append. -/
def dinsert {κ β : Type} [DecidableEq κ] : List (κ × β) → κ → β → List (κ × β)
  | [], k, v => [(k, v)]
  | kv :: rest, k, v => if kv.1 = k then (k, v) :: rest else kv :: dinsert rest k v

/-- The model of Python `del d[k]` on a key that is present (all pairs with
that key are dropped; states built by `dinsert` have at most one). -/
def ddelete {κ β : Type} [DecidableEq κ] (l : List (κ × β)) (k : κ) : List (κ × β) :=
  l.filter (fun kv => !(decide (kv.1 = k)))

/-- Order-preserving de-duplication, used where the source builds a Python
`set` and then iterates it (the set's iteration order is arbitrary; we fix
first-occurrence order). -/
def listDedup (l : List String) : List String :=
  l.foldl (fun acc s => if decide (s ∈ acc) then acc else acc ++ [s]) []

/-- The `while str(fileID) in manifest: fileID += 1` search loop shared by all
ID-allocation sites.  `p` is the key-membership test, `fid` the running
counter, `fuel` a bound on the number of iterations (callers pass one more
than the size of the manifest, which always suffices because the manifest has
only that many keys). -/
def allocLoop (p : Nat → Bool) (fid fuel : Nat) : Nat :=
  match fuel with
  | 0 => fid
  | fuel' + 1 => if p fid then allocLoop p (fid + 1) fuel' else fid

/-- Split of a character list at every occurrence of a separator, the model
of Python `str.split` with a one-character separator (an empty input yields
one empty group, exactly as in Python). -/
def splitChars (sep : Char) : List Char → List (List Char)
  | [] => [[]]
  | c :: cs =>
      let r := splitChars sep cs
      if c = sep then [] :: r
      else
        match r with
        | [] => [[c]]
        | g :: gs => (c :: g) :: gs

/-- Python `s.split(sep)` for a one-character separator. -/
def splitOnChar (sep : Char) (s : String) : List String :=
  (splitChars sep s.toList).map (fun g => String.mk g)

/-- Python `sep.join(parts)`. -/
def strIntercalate (sep : String) : List String → String
  | [] => ""
  | [s] => s
  | s :: rest => s ++ sep ++ strIntercalate sep rest

/-- Path components of a posix path, models the component view used by
`os.path` on normalized paths (leading slash and duplicate slashes dropped). -/
def splitPath (p : String) : List String :=
  (splitOnChar '/' p).filter (fun c => !(decide (c = "")))

/-- Longest common prefix of two component lists. -/
def commonPrefixParts : List String → List String → List String
  | a :: as, b :: bs => if a = b then a :: commonPrefixParts as bs else []
  | _, _ => []

/-- Model of `os.path.commonpath([a, b])` for absolute normalized posix
paths: the common component prefix, rendered with a leading slash (so two
unrelated absolute paths share only the root). -/
def commonpath2 (a b : String) : String :=
  "/" ++ strIntercalate "/" (commonPrefixParts (splitPath a) (splitPath b))

/-- Model of `os.path.join(a, b)` for posix paths: an absolute second
argument wins, otherwise the two are joined with a separator. -/
def pathJoin (a b : String) : String :=
  if b.toList.head? = some '/' then b
  else if a = "" then b
  else if a.toList.getLast? = some '/' then a ++ b
  else a ++ "/" ++ b

/-- Model of `os.path.relpath(p, start)` for absolute normalized posix
inputs: strip the common component prefix and climb with `..` segments.
(The cwd-dependence Python has on relative inputs is not modelled.) -/
def relpath (p start : String) : String :=
  let pc := splitPath p
  let sc := splitPath start
  let c := (commonPrefixParts pc sc).length
  let parts := List.replicate (sc.length - c) ".." ++ pc.drop c
  if parts.isEmpty then "." else strIntercalate "/" parts

/-- Model of `os.path.basename`: everything after the last separator. -/
def basename (p : String) : String :=
  (splitOnChar '/' p).getLastD ""

/-- Model of `os.path.abspath` restricted to the already-absolute normalized
paths produced in this module (joins of the absolute archive root). -/
def abspath (p : String) : String := p

/-- The static `_descriptions` table mapping a file-extension suffix to a
human-readable label. -/
def descriptionsTable : List (String × String) :=
  [("json", "Metadata regarding a specific run of pVAC-Seq"),
   ("chop.tsv", "Processed and filtered data, with peptide cleavage data added"),
   ("combined.parsed.tsv", "Processed data from IEDB, but with no filtering or extra data"),
   ("filtered.binding.tsv", "Processed data filtered by binding strength"),
   ("filtered.coverage.tsv", "Processed data filtered by binding strength and coverage"),
   ("stab.tsv", "Processed and filtered data, with peptide stability data added"),
   ("final.tsv", "Final output data"),
   ("tsv", "Raw input data parsed out of the input vcf")]

/-- The function `descriptions(ext)`: exact-match lookup in `_descriptions`,
defaulting to "Unknown File". -/
def descriptions (ext : String) : String :=
  match dlookup descriptionsTable ext with
  | some d => d
  | none => "Unknown File"

/-- The suffix handed to `descriptions` throughout the source:
`'.'.join(os.path.basename(filename).split('.')[1:])`. -/
def extSuffix (filename : String) : String :=
  strIntercalate "." ((splitOnChar '.' (basename filename)).drop 1)

/-- A manifest entry in its current shape:
`{"fullname": ..., "display_name": ..., "description": ...}`. -/
structure Entry where
  fullname : String
  display_name : String
  description : String
deriving DecidableEq, Repr

/-- A Python dict key as the source uses them: either a string or an int
(the legacy process-manifest migration produces int keys). -/
inductive PyKey where
  | str : String → PyKey
  | int : Nat → PyKey
deriving DecidableEq, Repr

/-- How an int or str dict key is rendered by `'%s' % key`. -/
def pyKeyStr : PyKey → String
  | PyKey.str s => s
  | PyKey.int n => toString n

/-- A value of the dropbox manifest: a legacy bare path string, or a full
entry. -/
inductive DropVal where
  | legacy : String → DropVal
  | entry : Entry → DropVal
deriving DecidableEq, Repr

/-- Python `value == somestring` on a dropbox manifest value: a dict never
equals a string, a legacy string compares as string equality.  This is the
comparison the dropbox delete and move handlers perform. -/
def dropvalEqStr (v : DropVal) (s : String) : Bool :=
  match v with
  | DropVal.legacy t => t = s
  | DropVal.entry _ => false

/-- The entry built by the legacy dropbox migration (source lines 180-192):
`fullname = os.path.join(dbr, filename)` (no abspath here),
`display_name = os.path.relpath(filename, dbr)`,
`description = descriptions('.'.join(basename(filename).split('.')[1:]))`. -/
def mkDropMigrEntry (dbr s : String) : DropVal :=
  DropVal.entry
    { fullname := pathJoin dbr s,
      display_name := relpath s dbr,
      description := descriptions (extSuffix s) }

/-- One value of the dropbox manifest after the migration loop: a legacy
string is replaced by a full entry, anything else is left untouched
(`if type(data['dropbox'][key]) == str`). -/
def migrateDropVal (dbr : String) : DropVal → DropVal
  | DropVal.legacy s => mkDropMigrEntry dbr s
  | DropVal.entry e => DropVal.entry e

/-- The dropbox legacy-format migration loop (source lines 177-192): every
value is rewritten in place under its own key. -/
def migrateDropbox (dbr : String) (m : List (String × DropVal)) : List (String × DropVal) :=
  m.map (fun kv => (kv.1, migrateDropVal dbr kv.2))

/-- The dropbox startup stale-entry removal (source lines 193-196).  The
manifest here is the post-migration one, whose values are all full entries.
`recorded` is the set of recorded fullnames; `targets` is built, as in the
source, as a set of FULLNAMES of the entries whose file is gone
(`recorded - current`), and the loop then runs `del data['dropbox'][t]` on
each of those fullnames, which raises `KeyError` unless the fullname happens
to be a manifest key. -/
def dropboxReconcileDelete (m : List (String × Entry)) (current : List String) :
    Except String (List (String × Entry)) :=
  let recorded := m.map (fun kv => kv.2.fullname)
  let targets := listDedup
    ((m.filter (fun kv =>
        decide (kv.2.fullname ∈ recorded) && !(decide (kv.2.fullname ∈ current)))).map
      (fun kv => kv.2.fullname))
  targets.foldlM
    (fun acc t =>
      if memKeys acc t then Except.ok (ddelete acc t)
      else Except.error ("KeyError: " ++ t))
    m

/-- The entry built by the dropbox startup scan for a newly discovered file
(source lines 202-214): the walk yields absolute paths, and the entry stores
`abspath(join(dbr, filename))` with `relpath(filename, dbr)` as display name. -/
def mkDropScanEntry (dbr filename : String) : DropVal :=
  DropVal.entry
    { fullname := abspath (pathJoin dbr filename),
      display_name := relpath filename dbr,
      description := descriptions (extSuffix filename) }

/-- One iteration of the dropbox startup insertion loop (source lines
197-214): the running `fileID` counter is carried across files, advanced past
every key already present, and the new entry is inserted under the resulting
decimal-string key.  Returns the new manifest and the carried counter. -/
def dropboxAssignStep (dbr : String) (mfid : List (String × DropVal) × Nat)
    (filename : String) : List (String × DropVal) × Nat :=
  let fid := allocLoop (fun k => memKeys mfid.1 (toString k)) mfid.2 (mfid.1.length + 1)
  (dinsert mfid.1 (toString fid) (mkDropScanEntry dbr filename), fid)

/-- The whole dropbox startup insertion loop over the newly discovered files,
starting the carried counter at 0. -/
def dropboxReconcileInsert (dbr : String) (m : List (String × DropVal))
    (names : List String) : List (String × DropVal) :=
  (names.foldl (dropboxAssignStep dbr) (m, 0)).1

/-- The ID search of the dropbox create handler (source lines 223-224):
`fileID = 0` then `while str(fileID) in data['dropbox']: fileID += 1`. -/
def dropboxCreateAlloc (m : List (String × DropVal)) : Nat :=
  allocLoop (fun k => memKeys m (toString k)) 0 (m.length + 1)

/-- The entry built by the dropbox create handler (source lines 227-236):
note `display_name` is the relative filename itself, not a fresh relpath. -/
def mkDropCreateEntry (dbr filename : String) : DropVal :=
  DropVal.entry
    { fullname := abspath (pathJoin dbr filename),
      display_name := filename,
      description := descriptions (extSuffix filename) }

/-- The dropbox `_create` handler (source lines 217-237) acting on the
reloaded dropbox manifest: allocate the first free decimal ID from 0 and
insert the new entry. -/
def dropbox_create (dbr : String) (m : List (String × DropVal)) (src_path : String) :
    List (String × DropVal) :=
  let filename := relpath src_path dbr
  dinsert m (toString (dropboxCreateAlloc m)) (mkDropCreateEntry dbr filename)

/-- The dropbox watcher state the delete handler touches: the manifest plus
the set of existing per-file database tables (the external collaborator,
modelled as the list of table names). -/
structure DropboxState where
  dropbox : List (String × DropVal)
  tables : List String
deriving DecidableEq, Repr

/-- The dropbox `_delete` handler (source lines 243-257): it compares each
manifest VALUE with `os.path.relpath(event.src_path, dbr)` (`data['dropbox'][key]
== filename`), deletes the first match, drops the table `data_dropbox_<key>`
if it exists, and saves.  When nothing matches, the function falls through
without saving, leaving the persisted state unchanged. -/
def dropbox_delete (dbr : String) (st : DropboxState) (src_path : String) : DropboxState :=
  let filename := relpath src_path dbr
  match st.dropbox.find? (fun kv => dropvalEqStr kv.2 filename) with
  | none => st
  | some kv =>
      { dropbox := ddelete st.dropbox kv.1,
        tables := st.tables.filter (fun t => !(decide (t = "data_dropbox_" ++ kv.1))) }

/-- The dropbox `_move` handler (source lines 263-294): it compares each
manifest VALUE with `os.path.relpath(event.src_path, dbr)`, replaces the
first match in place with a rebuilt entry for the destination, and saves;
with no match it falls through without saving. -/
def dropbox_move (dbr : String) (m : List (String × DropVal)) (src_path dest_path : String) :
    List (String × DropVal) :=
  let filesrc := relpath src_path dbr
  let filedest := relpath dest_path dbr
  match m.find? (fun kv => dropvalEqStr kv.2 filesrc) with
  | none => m
  | some kv =>
      dinsert m kv.1
        (DropVal.entry
          { fullname := abspath (pathJoin dbr filedest),
            display_name := relpath filedest dbr,
            description := descriptions (extSuffix filedest) })

/-- A process record as the event handlers see it after startup: its `output`
directory and its `files` manifest.  Keys are `PyKey` because the legacy
migration produces Python int keys while every other site produces decimal
strings. -/
structure ProcRecord where
  output : String
  files : List (PyKey × Entry)
deriving DecidableEq, Repr

/-- The entry built for a process-scope file, shared by the startup scan
(source lines 341-350), the create handler (lines 373-379) and the move
handler (lines 433-442): `fullname` is the path itself, `display_name` its
relpath against the process `output`. -/
def mkResultsEntry (filepath output : String) : Entry :=
  { fullname := filepath,
    display_name := relpath filepath output,
    description := descriptions (extSuffix filepath) }

/-- The legacy process-manifest migration (source lines 305-322):
`zip(data[processkey]['files'], range(sys.maxsize))` pairs each path with an
INT index, and the dict comprehension keys the new manifest by that int
(`fileID:`, with no `str()`), in iteration order from 0. -/
def migrateLegacyFiles (files : List String) (output : String) : List (PyKey × Entry) :=
  files.enum.map (fun p => (PyKey.int p.1, mkResultsEntry p.2 output))

/-- The ID search of the process-scope insertion sites (source lines 336-339
and 364-367): `fileID = len(files)` then
`while str(fileID) in files: fileID += 1`. -/
def processAlloc (files : List (PyKey × Entry)) : Nat :=
  allocLoop (fun k => memKeys files (PyKey.str (toString k))) files.length (files.length + 1)

/-- The process-scope startup reconciliation (source lines 325-350) for one
record: build `recorded` as the fullname-to-key dict, delete the key of every
recorded fullname no longer on disk, then insert every new path under the ID
found by `processAlloc` of the manifest at that moment. -/
def processReconcile (r : ProcRecord) (current : List String) : ProcRecord :=
  let recorded : List (String × PyKey) :=
    r.files.foldl (fun acc kv => dinsert acc kv.2.fullname kv.1) []
  let gone := (recorded.map Prod.fst).filter (fun fn => !(decide (fn ∈ current)))
  let files1 := gone.foldl
    (fun fs fn =>
      match dlookup recorded fn with
      | some k => ddelete fs k
      | none => fs)
    r.files
  let newNames := current.filter (fun fn => !(memKeys recorded fn))
  let files2 := newNames.foldl
    (fun fs fn => dinsert fs (PyKey.str (toString (processAlloc fs))) (mkResultsEntry fn r.output))
    files1
  { r with files := files2 }

/-- The state the results-watcher handlers reload from disk and save back:
the `processid` counter, the keyed store restricted to the process records
(keys of the shape `process-<i>`), and the external database's tables. -/
structure ResultsState where
  processid : Nat
  store : List (String × ProcRecord)
  tables : List String
deriving DecidableEq, Repr

/-- Python `'process-%d' % i`. -/
def processkey (i : Nat) : String := "process-" ++ toString i

/-- The `parentpaths` comprehension of the results handlers (source lines
354-358 etc.): for every process index `0..processid` whose record exists,
its output directory, index, and record.  The source builds a set (arbitrary
iteration order); we fix ascending index order. -/
def parentPaths (st : ResultsState) : List (String × Nat × ProcRecord) :=
  (List.range (st.processid + 1)).filterMap
    (fun i => (dlookup st.store (processkey i)).map (fun r => (r.output, i, r)))

/-- The results `_create` handler (source lines 352-381): find the first
parent whose output is a common-path prefix of the event path, allocate via
`processAlloc`, insert, save.  With no matching parent the handler falls
through without touching the store. -/
def results_create (st : ResultsState) (filepath : String) : Except String ResultsState :=
  match (parentPaths st).find? (fun pp => commonpath2 filepath pp.1 = pp.1) with
  | none => Except.ok st
  | some (_, pid, r) =>
      let fid := toString (processAlloc r.files)
      Except.ok
        { st with
            store := dinsert st.store (processkey pid)
              { r with files := dinsert r.files (PyKey.str fid) (mkResultsEntry filepath r.output) } }

/-- The results `_delete` handler (source lines 387-407): find the first
matching parent, delete every manifest entry whose `fullname` equals the
event path, drop each such entry's table `data_<pid>_<fileID>` if it exists,
save.  With no matching parent nothing is saved. -/
def results_delete (st : ResultsState) (filepath : String) : ResultsState :=
  match (parentPaths st).find? (fun pp => commonpath2 filepath pp.1 = pp.1) with
  | none => st
  | some (_, pid, r) =>
      let hit := r.files.filter (fun kv => kv.2.fullname = filepath)
      let dropped := hit.map (fun kv => "data_" ++ toString pid ++ "_" ++ pyKeyStr kv.1)
      { st with
          store := dinsert st.store (processkey pid)
            { r with files := r.files.filter (fun kv => !(decide (kv.2.fullname = filepath))) },
          tables := st.tables.filter (fun t => !(decide (t ∈ dropped))) }

/-- The in-place entry replacement of the results `_move` same-key branch
(source lines 431-442), performed on the reloaded in-memory copy. -/
def moveInPlace (r : ProcRecord) (src dest : String) : ProcRecord :=
  { r with
      files := r.files.map
        (fun kv => if kv.2.fullname = src then (kv.1, mkResultsEntry dest r.output) else kv) }

/-- The results `_move` handler (source lines 413-447).  `srckey` and
`destkey` start as empty strings; for each parent, the source tests the
source path with `if` and the destination path only in the `elif`, so a
parent containing both only ever sets `srckey`.  When the two keys are equal
(both empty unless the store has an empty-string key) the handler evaluates
`data[srckey]` — a `KeyError` when that key is absent — and otherwise runs
the in-place update WITHOUT calling `data.save()`, so the persisted state is
unchanged; when the keys differ it behaves as `_delete(src)` then
`_create(dest)`. -/
def results_move (st : ResultsState) (src dest : String) : Except String ResultsState :=
  let sd := (parentPaths st).foldl
    (fun sk_dk pp =>
      if commonpath2 src pp.1 = pp.1 then (processkey pp.2.1, sk_dk.2)
      else if commonpath2 dest pp.1 = pp.1 then (sk_dk.1, processkey pp.2.1)
      else sk_dk)
    ("", "")
  if sd.1 = sd.2 then
    match dlookup st.store sd.1 with
    | none => Except.error ("KeyError: " ++ sd.1)
    | some r =>
        let _ := moveInPlace r src dest
        Except.ok st
  else
    results_create (results_delete st src) dest

/-- A value held in the `dataObj` dict: the reserved `_datafiles` registry
(destination file to list of registered keys) or an ordinary value. -/
inductive StoreVal (V : Type) where
  | reg : List (String × List String) → StoreVal V
  | val : V → StoreVal V
deriving DecidableEq, Repr

/-- The `dataObj` store itself is one Python dict, holding the registry under
the reserved key `_datafiles` next to the ordinary keys. -/
def DataObj (V : Type) : Type := List (String × StoreVal V)

/-- The `dataObj.__init__` constructor: the dict holds only
`_datafiles = dict.fromkeys(datafiles, [])` — an empty key list per
destination. -/
def DataObj.init {V : Type} (datafiles : List String) : DataObj V :=
  [("_datafiles", StoreVal.reg (datafiles.map (fun f => (f, []))))]

/-- Access to `self['_datafiles']`.  Every state the operations produce keeps
the reserved key, so the default branch is unreachable through the API. -/
def DataObj.getRegistry {V : Type} (d : DataObj V) : List (String × List String) :=
  match dlookup d "_datafiles" with
  | some (StoreVal.reg r) => r
  | _ => []

/-- The set comprehension of the `__setitem__` guard:
`{k for parent in self['_datafiles'] for k in parent}`.  Iterating the
registry dict yields its KEYS — the destination file paths — and iterating a
path string yields its characters, so this is the set of one-character
strings drawn from the destination paths, not the registered key lists. -/
def registryChars (r : List (String × List String)) : List String :=
  (r.map Prod.fst).foldr (fun p acc => p.toList.map (fun c => String.mk [c]) ++ acc) []

/-- All keys appearing in some destination's registered key list. -/
def registeredKeys (r : List (String × List String)) : List String :=
  r.foldr (fun p acc => p.2 ++ acc) []

/-- The guarded `dataObj.__setitem__` (source lines 22-25): raise `KeyError`
when the key is neither already in the dict nor among the characters of the
destination paths, otherwise store the value. -/
def DataObj.setItem {V : Type} (d : DataObj V) (k : String) (v : V) :
    Except String (DataObj V) :=
  if !(memKeys d k) && !(decide (k ∈ registryChars (DataObj.getRegistry d))) then
    Except.error ("Key " ++ k ++ " has no associated file.  Use addKey() first")
  else
    Except.ok (dinsert d k (StoreVal.val v))

/-- The `dataObj.addKey` method (source lines 27-33): register the key
against the destination (creating or appending its list) and store the value
bypassing the guard. -/
def DataObj.addKey {V : Type} (d : DataObj V) (k : String) (v : V) (dest : String) :
    DataObj V :=
  let r := DataObj.getRegistry d
  let r' :=
    match dlookup r dest with
    | none => r ++ [(dest, [k])]
    | some l => dinsert r dest (l ++ [k])
  dinsert (dinsert d "_datafiles" (StoreVal.reg r')) k (StoreVal.val v)

/-- The JSON object `dataObj.save` writes for one destination (source lines
40-46): `{key: self[key] for key in self['_datafiles'][datafile] if key in
self}`, built left to right with dict-comprehension overwrite semantics. -/
def DataObj.saveFile {V : Type} (d : DataObj V) (ks : List String) :
    List (String × StoreVal V) :=
  ks.foldl
    (fun acc k =>
      match dlookup d k with
      | some v => dinsert acc k v
      | none => acc)
    []

/-- The whole `dataObj.save` (source lines 35-47): one JSON object per
destination in the registry (the directory creation and file write are the
out-of-scope I/O). -/
def DataObj.save {V : Type} (d : DataObj V) : List (String × List (String × StoreVal V)) :=
  (DataObj.getRegistry d).map (fun p => (p.1, DataObj.saveFile d p.2))

/-- A nested mutation `data[k][id] = e` as every event handler performs it:
`dict.__getitem__` on the store (no guard is involved), then a plain dict
assignment on the nested manifest.  A missing top-level key is Python's
ordinary `KeyError` from the subscript, not the `__setitem__` guard. -/
def DataObj.setNested {E : Type} (d : DataObj (List (String × E))) (k id : String) (e : E) :
    Except String (DataObj (List (String × E))) :=
  match dlookup d k with
  | some (StoreVal.val m) => Except.ok (dinsert d k (StoreVal.val (dinsert m id e)))
  | _ => Except.error ("KeyError: " ++ k)

/-- A nested deletion `del data[k][id]`, again guard-free: plain subscript
then plain dict deletion (which itself raises only if `id` is absent). -/
def DataObj.delNested {E : Type} (d : DataObj (List (String × E))) (k id : String) :
    Except String (DataObj (List (String × E))) :=
  match dlookup d k with
  | some (StoreVal.val m) =>
      if memKeys m id then Except.ok (dinsert d k (StoreVal.val (ddelete m id)))
      else Except.error ("KeyError: " ++ id)
  | _ => Except.error ("KeyError: " ++ k)

/-- The search loop returns `n` whenever `n` is the first non-member at or
after the start counter and the fuel reaches it. -/
theorem allocLoop_ret (p : Nat → Bool) :
    ∀ (fuel fid n : Nat), fid ≤ n → n ≤ fid + fuel →
    (∀ k, fid ≤ k → k < n → p k = true) → p n = false →
    allocLoop p fid fuel = n := by
  intro fuel
  induction fuel with
  | zero =>
    intro fid n h1 h2 _ _
    simp only [allocLoop]
    omega
  | succ f ih =>
    intro fid n h1 h2 hmin hfree
    simp only [allocLoop]
    cases hp : p fid with
    | true =>
      simp only [if_pos rfl]
      have hne : fid ≠ n := by
        intro he
        rw [he, hfree] at hp
        exact Bool.noConfusion hp
      exact ih (fid + 1) n (by omega) (by omega)
        (fun k hk1 hk2 => hmin k (by omega) hk2) hfree
    | false =>
      simp only [Bool.false_eq_true, if_false]
      have hnlt : ¬ fid < n := by
        intro hlt
        rw [hmin fid (Nat.le_refl fid) hlt] at hp
        exact Bool.noConfusion hp
      omega

/-- Lookup after a dict assignment: the new key wins, other keys are
untouched. -/
theorem dlookup_dinsert {κ β : Type} [DecidableEq κ] :
    ∀ (l : List (κ × β)) (k : κ) (v : β) (k' : κ),
      dlookup (dinsert l k v) k' = if k = k' then some v else dlookup l k' := by
  intro l
  induction l with
  | nil =>
    intro k v k'
    simp [dinsert, dlookup]
  | cons kv rest ih =>
    intro k v k'
    simp only [dinsert]
    by_cases h : kv.1 = k
    · by_cases h2 : k = k' <;> simp [dlookup, h, h2]
    · simp only [if_neg h]
      by_cases h3 : kv.1 = k'
      · have hkk : k ≠ k' := fun he => h (by rw [he]; exact h3)
        simp [dlookup, h3, hkk]
      · simp [dlookup, h3, ih]

/-- Key membership after a dict assignment. -/
theorem memKeys_dinsert {κ β : Type} [DecidableEq κ] (l : List (κ × β)) (k : κ) (v : β)
    (k' : κ) : memKeys (dinsert l k v) k' = true ↔ (k' = k ∨ memKeys l k' = true) := by
  rw [memKeys, dlookup_dinsert]
  by_cases h : k = k'
  · simp [h]
  · have : k' ≠ k := fun he => h he.symm
    simp [h, this, memKeys]

/-- Lookup commutes with a value-only map over an association list. -/
theorem dlookup_map_val {κ β γ : Type} [DecidableEq κ] (g : β → γ) :
    ∀ (l : List (κ × β)) (k : κ),
      dlookup (l.map (fun p => (p.1, g p.2))) k = (dlookup l k).map g := by
  intro l
  induction l with
  | nil => intro k; rfl
  | cons kv rest ih =>
    intro k
    simp only [List.map_cons, dlookup]
    by_cases h : kv.1 = k
    · simp [h]
    · simp [h, ih]

/-- Membership in the dict-comprehension built by `saveFile`, generalized
over the accumulator. -/
theorem memKeys_saveFile_go {V : Type} (d : DataObj V) :
    ∀ (ks : List String) (acc : List (String × StoreVal V)) (k : String),
      memKeys
          (ks.foldl
            (fun acc k =>
              match dlookup d k with
              | some v => dinsert acc k v
              | none => acc)
            acc) k = true
        ↔ (memKeys acc k = true ∨ (k ∈ ks ∧ memKeys d k = true)) := by
  intro ks
  induction ks with
  | nil =>
    intro acc k
    simp
  | cons k' t ih =>
    intro acc k
    simp only [List.foldl_cons]
    rw [ih]
    cases hd : dlookup d k' with
    | none =>
      simp only [hd]
      by_cases hk : k = k'
      · subst hk
        simp [memKeys, hd]
      · simp [List.mem_cons, hk]
    | some v =>
      simp only [hd]
      rw [memKeys_dinsert]
      by_cases hk : k = k'
      · subst hk
        simp [memKeys, hd]
      · simp only [List.mem_cons, hk, false_or]

/-- C8: every dropbox manifest entry stored in the legacy form of a bare
path string is converted in place, under the same ID key, into the full
entry shape, with `fullname = join(dbr, s)`, `display_name = relpath(s, dbr)`
and `description` obtained by the catalog lookup on the filename's suffix
(all dot-segments after the first, rejoined with a dot). -/
theorem C8_legacy_entry_migrated (dbr : String) (m : List (String × DropVal))
    (k s : String) (h : dlookup m k = some (DropVal.legacy s)) :
    dlookup (migrateDropbox dbr m) k
      = some (DropVal.entry
          { fullname := pathJoin dbr s,
            display_name := relpath s dbr,
            description := descriptions (extSuffix s) }) := by
  unfold migrateDropbox
  rw [dlookup_map_val (migrateDropVal dbr) m k, h]
  rfl

theorem C8_legacy_entry_migrated_witness :
    dlookup (migrateDropbox "/d" [("3", DropVal.legacy "/d/x.tsv")]) "3"
      = some (DropVal.entry
          { fullname := "/d/x.tsv",
            display_name := "x.tsv",
            description := "Raw input data parsed out of the input vcf" }) :=
  C8_legacy_entry_migrated "/d" [("3", DropVal.legacy "/d/x.tsv")] "3" "/d/x.tsv" rfl

/-- C9: for every store state, `save` writes to each destination file the
JSON object built by `saveFile`, and a key appears in that object exactly
when it is registered to that destination and currently has a value in the
store — no unregistered key, no valueless key, and no key registered only
elsewhere. -/
theorem C9_save_exact_keys {V : Type} (d : DataObj V) (f : String) (ks : List String)
    (k : String) (h : dlookup (DataObj.getRegistry d) f = some ks) :
    dlookup (DataObj.save d) f = some (DataObj.saveFile d ks)
    ∧ (memKeys (DataObj.saveFile d ks) k = true ↔ (k ∈ ks ∧ memKeys d k = true)) := by
  constructor
  · unfold DataObj.save
    rw [dlookup_map_val (DataObj.saveFile d) (DataObj.getRegistry d) f, h]
    rfl
  · have hgo := memKeys_saveFile_go d ks [] k
    unfold DataObj.saveFile
    rw [hgo]
    simp [memKeys, dlookup]

theorem C9_save_exact_keys_witness :
    dlookup
        (DataObj.save
          [("_datafiles", StoreVal.reg [("/f", ["a", "b"])]), ("a", StoreVal.val (1 : Nat))])
        "/f"
      = some (DataObj.saveFile
          [("_datafiles", StoreVal.reg [("/f", ["a", "b"])]), ("a", StoreVal.val (1 : Nat))]
          ["a", "b"])
    ∧ (memKeys
          (DataObj.saveFile
            [("_datafiles", StoreVal.reg [("/f", ["a", "b"])]), ("a", StoreVal.val (1 : Nat))]
            ["a", "b"])
          "a" = true
        ↔ ("a" ∈ ["a", "b"]
            ∧ memKeys
                [("_datafiles", StoreVal.reg [("/f", ["a", "b"])]), ("a", StoreVal.val (1 : Nat))]
                "a" = true)) :=
  C9_save_exact_keys
    [("_datafiles", StoreVal.reg [("/f", ["a", "b"])]), ("a", StoreVal.val (1 : Nat))]
    "/f" ["a", "b"] "a" rfl

/-- C10: the unregistered-key guard lives only in the top-level
`__setitem__`; mutating the nested dict stored under a present key — the
replace/insert `data[k][id] = e` and the delete `del data[k][id]` every
event handler performs — goes through the plain dict subscript and never
raises the guard, whatever the registration state of `k`. -/
theorem C10_nested_mutation_unguarded {E : Type} (d : DataObj (List (String × E)))
    (k id : String) (e : E) (m : List (String × E))
    (h : dlookup d k = some (StoreVal.val m)) :
    DataObj.setNested d k id e = Except.ok (dinsert d k (StoreVal.val (dinsert m id e)))
    ∧ (memKeys m id = true →
        DataObj.delNested d k id = Except.ok (dinsert d k (StoreVal.val (ddelete m id)))) := by
  constructor
  · unfold DataObj.setNested
    rw [h]
  · intro h2
    unfold DataObj.delNested
    rw [h]
    simp [h2]

theorem C10_nested_mutation_unguarded_witness :
    DataObj.setNested
        [("_datafiles", StoreVal.reg [("/f", [])]), ("dropbox", StoreVal.val [("0", (5 : Nat))])]
        "dropbox" "0" 7
      = Except.ok
          (dinsert
            [("_datafiles", StoreVal.reg [("/f", [])]),
             ("dropbox", StoreVal.val [("0", (5 : Nat))])]
            "dropbox" (StoreVal.val (dinsert [("0", (5 : Nat))] "0" 7)))
    ∧ DataObj.delNested
        [("_datafiles", StoreVal.reg [("/f", [])]), ("dropbox", StoreVal.val [("0", (5 : Nat))])]
        "dropbox" "0"
      = Except.ok
          (dinsert
            [("_datafiles", StoreVal.reg [("/f", [])]),
             ("dropbox", StoreVal.val [("0", (5 : Nat))])]
            "dropbox" (StoreVal.val (ddelete [("0", (5 : Nat))] "0"))) :=
  ⟨(C10_nested_mutation_unguarded
      [("_datafiles", StoreVal.reg [("/f", [])]), ("dropbox", StoreVal.val [("0", (5 : Nat))])]
      "dropbox" "0" 7 [("0", (5 : Nat))] rfl).1,
   (C10_nested_mutation_unguarded
      [("_datafiles", StoreVal.reg [("/f", [])]), ("dropbox", StoreVal.val [("0", (5 : Nat))])]
      "dropbox" "0" 7 [("0", (5 : Nat))] rfl).2 rfl⟩

/-- C1, counterexample: in a process-scope files manifest with ID set
containing "0" and "2", the smallest free ID is "1" (0 is taken, 1 is
free), but the create-handler allocation starts at `len(files)` and returns
3, and the handler inserts the new entry under "3"; the freed ID "1" is not
reused. -/
theorem C1_counterexample :
    memKeys [(PyKey.str "0", ({ fullname := "/d/r0/a.tsv", display_name := "a.tsv", description := "D" } : Entry)),
             (PyKey.str "2", ({ fullname := "/d/r0/b.tsv", display_name := "b.tsv", description := "D" } : Entry))]
        (PyKey.str "0") = true
    ∧ memKeys [(PyKey.str "0", ({ fullname := "/d/r0/a.tsv", display_name := "a.tsv", description := "D" } : Entry)),
               (PyKey.str "2", ({ fullname := "/d/r0/b.tsv", display_name := "b.tsv", description := "D" } : Entry))]
        (PyKey.str "1") = false
    ∧ processAlloc [(PyKey.str "0", { fullname := "/d/r0/a.tsv", display_name := "a.tsv", description := "D" }),
                    (PyKey.str "2", { fullname := "/d/r0/b.tsv", display_name := "b.tsv", description := "D" })] = 3
    ∧ results_create
        { processid := 0,
          store := [("process-0",
            { output := "/d/r0",
              files := [(PyKey.str "0", { fullname := "/d/r0/a.tsv", display_name := "a.tsv", description := "D" }),
                        (PyKey.str "2", { fullname := "/d/r0/b.tsv", display_name := "b.tsv", description := "D" })] })],
          tables := [] } "/d/r0/c.tsv"
      = Except.ok
          { processid := 0,
            store := [("process-0",
              { output := "/d/r0",
                files := [(PyKey.str "0", { fullname := "/d/r0/a.tsv", display_name := "a.tsv", description := "D" }),
                          (PyKey.str "2", { fullname := "/d/r0/b.tsv", display_name := "b.tsv", description := "D" }),
                          (PyKey.str "3",
                           { fullname := "/d/r0/c.tsv", display_name := "c.tsv",
                             description := "Raw input data parsed out of the input vcf" })] })],
            tables := [] } :=
  ⟨rfl, rfl, rfl, rfl⟩

/-- C1, amended: the dropbox-scope sites (the create handler's fresh search
from 0, and each startup-scan insertion given its carried counter and the
invariant that every ID below the carried counter is present) insert under
the decimal string of the smallest `n ≥ 0` whose string is not a key; the
process-scope sites insert under the decimal string of the smallest
`n ≥ len(files)` whose string is not a key, so a freed ID below `len(files)`
is not reused there. -/
theorem C1_alloc_amended :
    (∀ (dbr : String) (m : List (String × DropVal)) (src : String) (n : Nat),
      (∀ k, k < n → memKeys m (toString k) = true) →
      memKeys m (toString n) = false →
      n ≤ m.length + 1 →
      dropbox_create dbr m src
        = dinsert m (toString n) (mkDropCreateEntry dbr (relpath src dbr)))
    ∧ (∀ (files : List (PyKey × Entry)) (n : Nat),
      files.length ≤ n →
      (∀ k, files.length ≤ k → k < n → memKeys files (PyKey.str (toString k)) = true) →
      memKeys files (PyKey.str (toString n)) = false →
      n ≤ files.length + (files.length + 1) →
      processAlloc files = n)
    ∧ (∀ (dbr : String) (m : List (String × DropVal)) (fid : Nat) (f : String) (n : Nat),
      (∀ k, k < fid → memKeys m (toString k) = true) →
      (∀ k, k < n → memKeys m (toString k) = true) →
      memKeys m (toString n) = false →
      n ≤ fid + (m.length + 1) →
      dropboxAssignStep dbr (m, fid) f = (dinsert m (toString n) (mkDropScanEntry dbr f), n)) := by
  refine ⟨?_, ?_, ?_⟩
  · intro dbr m src n h1 h2 h3
    have halloc : dropboxCreateAlloc m = n := by
      unfold dropboxCreateAlloc
      exact allocLoop_ret _ (m.length + 1) 0 n (Nat.zero_le n) (by omega)
        (fun k _ hk => h1 k hk) h2
    simp only [dropbox_create]
    rw [halloc]
  · intro files n h1 hmin h2 h3
    unfold processAlloc
    exact allocLoop_ret _ (files.length + 1) files.length n h1 (by omega) hmin h2
  · intro dbr m fid f n hinv h1 h2 h3
    have hfid : fid ≤ n := by
      by_contra hc
      have hmem := hinv n (by omega)
      rw [h2] at hmem
      exact Bool.noConfusion hmem
    have halloc : allocLoop (fun k => memKeys m (toString k)) fid (m.length + 1) = n :=
      allocLoop_ret _ (m.length + 1) fid n hfid (by omega)
        (fun k _ hk => h1 k hk) h2
    simp only [dropboxAssignStep]
    rw [halloc]

theorem C1_alloc_amended_witness :
    dropbox_create "/d" [("0", DropVal.legacy "x")] "/d/b.tsv"
      = dinsert [("0", DropVal.legacy "x")] (toString 1)
          (mkDropCreateEntry "/d" (relpath "/d/b.tsv" "/d"))
    ∧ processAlloc [(PyKey.str "0", { fullname := "/d/a", display_name := "a", description := "D" })] = 1
    ∧ dropboxAssignStep "/d" ([("0", DropVal.legacy "x")], 1) "/d/c.tsv"
      = (dinsert [("0", DropVal.legacy "x")] (toString 1) (mkDropScanEntry "/d" "/d/c.tsv"), 1) :=
  ⟨C1_alloc_amended.1 "/d" [("0", DropVal.legacy "x")] "/d/b.tsv" 1
      (by decide) (by decide) (by decide),
   C1_alloc_amended.2.1 [(PyKey.str "0", { fullname := "/d/a", display_name := "a", description := "D" })] 1
      (by decide)
      (fun k hk1 hk2 => absurd (Nat.lt_of_le_of_lt hk1 hk2) (Nat.lt_irrefl 1))
      (by decide) (by decide),
   C1_alloc_amended.2.2 "/d" [("0", DropVal.legacy "x")] 1 "/d/c.tsv" 1
      (by decide) (by decide) (by decide) (by decide)⟩

/-- C2, code bug witnessed: the startup dropbox stale-entry removal builds
`targets` as a set of fullnames (`data['dropbox'][k]['fullname']`) and then
runs `del data['dropbox'][t]` on each, so for a manifest with entry "0"
whose file `/d/a.tsv` is gone from disk it raises
`KeyError('/d/a.tsv')` instead of deleting ID "0": the path is not a
manifest key, while "0" is. -/
theorem C2_reconcile_delete_raises :
    dropboxReconcileDelete
        [("0", { fullname := "/d/a.tsv", display_name := "a.tsv", description := "D" })] []
      = Except.error "KeyError: /d/a.tsv"
    ∧ memKeys [("0", ({ fullname := "/d/a.tsv", display_name := "a.tsv", description := "D" } : Entry))]
        "0" = true
    ∧ memKeys [("0", ({ fullname := "/d/a.tsv", display_name := "a.tsv", description := "D" } : Entry))]
        "/d/a.tsv" = false :=
  ⟨rfl, rfl, rfl⟩

/-- C3, code bug witnessed.  Results scope: a move of `/d/r0/x.tsv` to
`/d/r0/y.tsv` inside the single process-0 output sets `srckey` to
"process-0" but leaves `destkey` empty (the destination is only tested in
the `elif`), so the handler runs delete-then-create: the entry under ID "2"
is removed, its table `data_0_2` dropped, and the file re-inserted under the
freshly allocated ID "0" — the ID is not preserved.  Dropbox scope: the
handler compares each manifest VALUE with the relative source path, a dict
entry never equals a string, so an entry whose fullname matches the moved
file is left untouched. -/
theorem C3_move_not_in_place :
    results_move
        { processid := 0,
          store := [("process-0",
            { output := "/d/r0",
              files := [(PyKey.str "2",
                { fullname := "/d/r0/x.tsv", display_name := "x.tsv", description := "D" })] })],
          tables := ["data_0_2"] } "/d/r0/x.tsv" "/d/r0/y.tsv"
      = Except.ok
          { processid := 0,
            store := [("process-0",
              { output := "/d/r0",
                files := [(PyKey.str "0",
                  { fullname := "/d/r0/y.tsv", display_name := "y.tsv",
                    description := "Raw input data parsed out of the input vcf" })] })],
            tables := [] }
    ∧ dropbox_move "/d"
        [("2", DropVal.entry { fullname := "/d/x.tsv", display_name := "x.tsv", description := "D" })]
        "/d/x.tsv" "/d/y.tsv"
      = [("2", DropVal.entry { fullname := "/d/x.tsv", display_name := "x.tsv", description := "D" })] :=
  ⟨rfl, rfl⟩

/-- C4, code bug witnessed: the dropbox delete handler compares each
manifest VALUE with `relpath(event.src_path, dbr)` instead of comparing the
entry's fullname with the path, so deleting `/d/x.tsv` — recorded under ID
"0" with exactly that fullname — removes nothing and drops no table. -/
theorem C4_delete_no_removal :
    dropbox_delete "/d"
        { dropbox := [("0", DropVal.entry
            { fullname := "/d/x.tsv", display_name := "x.tsv", description := "D" })],
          tables := ["data_dropbox_0"] } "/d/x.tsv"
      = { dropbox := [("0", DropVal.entry
            { fullname := "/d/x.tsv", display_name := "x.tsv", description := "D" })],
          tables := ["data_dropbox_0"] }
    ∧ dlookup [("0", DropVal.entry
          ({ fullname := "/d/x.tsv", display_name := "x.tsv", description := "D" } : Entry))] "0"
      = some (DropVal.entry { fullname := "/d/x.tsv", display_name := "x.tsv", description := "D" }) :=
  ⟨rfl, rfl⟩

/-- C5, code bug witnessed: for a path outside every process output
(`/t/x` against the single output `/d/r0`), the results create and delete
handlers fall through untouched, but the move handler reaches
`srckey == destkey == ''` and evaluates `data['']`, raising `KeyError`
instead of ignoring the event. -/
theorem C5_outside_scope_move_raises :
    results_create
        { processid := 0,
          store := [("process-0", { output := "/d/r0", files := [] })],
          tables := [] }
        "/t/x"
      = Except.ok
          { processid := 0,
            store := [("process-0", { output := "/d/r0", files := [] })],
            tables := [] }
    ∧ results_delete
        { processid := 0,
          store := [("process-0", { output := "/d/r0", files := [] })],
          tables := [] }
        "/t/x"
      = { processid := 0,
          store := [("process-0", { output := "/d/r0", files := [] })],
          tables := [] }
    ∧ results_move
        { processid := 0,
          store := [("process-0", { output := "/d/r0", files := [] })],
          tables := [] }
        "/t/x" "/t/y"
      = Except.error "KeyError: " :=
  ⟨rfl, rfl, rfl⟩

/-- C6, code bug witnessed: the `__setitem__` guard's registered-key set is
built by iterating the CHARACTERS of the destination paths, so on a fresh
store over `/data/files.json` the unregistered one-character key "f" (a
character of the path) is accepted silently, while the registry's key lists
are all empty; a multi-character unregistered key still fails, and a key
added with `addKey` can then be set. -/
theorem C6_guard_not_registration :
    DataObj.setItem (DataObj.init (V := Nat) ["/data/files.json"]) "f" 42
      = Except.ok (dinsert (DataObj.init (V := Nat) ["/data/files.json"]) "f" (StoreVal.val 42))
    ∧ registeredKeys (DataObj.getRegistry (DataObj.init (V := Nat) ["/data/files.json"])) = []
    ∧ DataObj.setItem (DataObj.init (V := Nat) ["/data/files.json"]) "unregistered_key" 42
      = Except.error "Key unregistered_key has no associated file.  Use addKey() first"
    ∧ DataObj.setItem
        (DataObj.addKey (DataObj.init (V := Nat) ["/data/files.json"]) "k" 1 "/data/files.json")
        "k" 2
      = Except.ok
          (dinsert
            (DataObj.addKey (DataObj.init (V := Nat) ["/data/files.json"]) "k" 1 "/data/files.json")
            "k" (StoreVal.val 2)) :=
  ⟨rfl, rfl, rfl, rfl⟩

/-- C7, code bug witnessed: migrating the legacy list-form files field
`['/d/r0/a.tsv']` keys the manifest by the Python INT 0 taken from
`range(sys.maxsize)` (no `str()` is applied), so after migration — and still
after the subsequent reconcile pass with the file present on disk — the
manifest's sole ID key is the integer 0 and the decimal string "0" is not a
key. -/
theorem C7_migration_int_keys :
    migrateLegacyFiles ["/d/r0/a.tsv"] "/d/r0"
      = [(PyKey.int 0,
          { fullname := "/d/r0/a.tsv", display_name := "a.tsv",
            description := "Raw input data parsed out of the input vcf" })]
    ∧ memKeys (migrateLegacyFiles ["/d/r0/a.tsv"] "/d/r0") (PyKey.str "0") = false
    ∧ processReconcile
        { output := "/d/r0", files := migrateLegacyFiles ["/d/r0/a.tsv"] "/d/r0" } ["/d/r0/a.tsv"]
      = { output := "/d/r0",
          files := [(PyKey.int 0,
            { fullname := "/d/r0/a.tsv", display_name := "a.tsv",
              description := "Raw input data parsed out of the input vcf" })] } :=
  ⟨rfl, rfl, rfl⟩
